import Mathlib

set_option maxHeartbeats 1000000

/-!
Shallow embedding of `crates/librqbit/src/torrent_manager.rs`:
the download-orchestrator startup sequence (`TorrentManager::start`),
the once-per-second speed-estimator sampling computation, and the
tracker announce loop (`tracker_one_request` / `single_tracker_monitor`).

Paths are modelled as opaque identifiers (`PathId`), file contents as
lists of byte values, and the on-disk state as an association list.
u64 arithmetic is modelled on `Nat` with explicit reduction mod `2 ^ 64`
exactly where the source uses wrapping operations.
-/

namespace Rqbit

/-- Opaque file-path identifier (the source uses `PathBuf`; only identity
of paths matters to the orchestrator logic modelled here). -/
abbrev PathId := Nat

/-- Bytes of a file, modelled as a list of byte values. -/
abbrev FileContents := List Nat

/-- On-disk state: an association list from paths to file contents. -/
abbrev FS := List (PathId × FileContents)

/-- Lookup of a path in the on-disk state. -/
def fsLookup : FS → PathId → Option FileContents
  | [], _ => none
  | (q, c) :: rest, p => if p = q then some c else fsLookup rest p

/-- Create or replace a file in the on-disk state. -/
def fsInsert : FS → PathId → FileContents → FS
  | [], p, c => [(p, c)]
  | (q, d) :: rest, p, c =>
    if p = q then (p, c) :: rest else (q, d) :: fsInsert rest p c

/-- An open file handle: which path it refers to, the contents visible
through it at open time, and its access mode. -/
structure FileHandle where
  path : PathId
  contents : FileContents
  readable : Bool
  writable : Bool
deriving DecidableEq, Repr

/-- Startup errors of `TorrentManager::start`. The only failure the
file-open loop can produce in this model is the create-new conflict
(the `create_new` open failing because the target already exists). -/
inductive StartError where
  | fileConflict (path : PathId)
deriving DecidableEq, Repr

/-- Open one target file, from the body of `TorrentManager::start`:
with `options.overwrite`, `OpenOptions::new().create(true).read(true).write(true)`
(note: no `truncate`, so existing contents are preserved); otherwise
`create_new(true).write(true)` (fails if the target exists) followed by a
re-open with `read(true).write(true)`. -/
def openTorrentFile (overwrite : Bool) (fs : FS) (p : PathId) :
    Except StartError (FS × FileHandle) :=
  if overwrite then
    match fsLookup fs p with
    | some c => .ok (fs, ⟨p, c, true, true⟩)
    | none => .ok (fsInsert fs p [], ⟨p, [], true, true⟩)
  else
    match fsLookup fs p with
    | some _ => .error (.fileConflict p)
    | none => .ok (fsInsert fs p [], ⟨p, [], true, true⟩)

/-- The file-open loop of `TorrentManager::start`: open every file of the
descriptor in order, propagating the first failure. -/
def openAllFiles (overwrite : Bool) : FS → List PathId →
    Except StartError (FS × List FileHandle)
  | fs, [] => .ok (fs, [])
  | fs, p :: rest =>
    match openTorrentFile overwrite fs p with
    | .error e => .error e
    | .ok (fs1, h) =>
      match openAllFiles overwrite fs1 rest with
      | .error e => .error e
      | .ok (fs2, hs) => .ok (fs2, h :: hs)

/-- `File::set_len`: truncate or zero-extend the contents to `l` bytes. -/
def setLen (c : FileContents) (l : Nat) : FileContents :=
  c.take l ++ List.replicate (l - c.length) 0

/-- `ensure_file_length(file, length)`: `Ok(file.set_len(length)?)`. -/
def ensure_file_length (h : FileHandle) (l : Nat) : FileHandle :=
  { h with contents := setLen h.contents l }

/-- The skip condition in the pre-sizing loop:
`options.only_files.as_ref().map(|v| !v.contains(&idx)).unwrap_or(false)`. -/
def skipByOnlyFiles (onlyFiles : Option (List Nat)) (idx : Nat) : Bool :=
  match onlyFiles with
  | some v => !(v.contains idx)
  | none => false

/-- The pre-sizing loop of `TorrentManager::start`, carrying the running
file index from `enumerate()`. A file is left untouched when it is skipped
by `only_files` or when its `set_len` call fails (`setLenFail` injects the
I/O outcome of each call); a failure is logged and the loop continues. -/
def ensureLengthsFrom (onlyFiles : Option (List Nat)) (setLenFail : List Bool) :
    Nat → List (FileHandle × Nat) → List FileHandle
  | _, [] => []
  | idx, (h, l) :: rest =>
    let h1 := if skipByOnlyFiles onlyFiles idx then h
              else if setLenFail.getD idx false then h
              else ensure_file_length h l
    h1 :: ensureLengthsFrom onlyFiles setLenFail (idx + 1) rest

/-- The whole pre-sizing phase, starting at index 0. -/
def ensureAllLengths (onlyFiles : Option (List Nat)) (setLenFail : List Bool)
    (files : List (FileHandle × Nat)) : List FileHandle :=
  ensureLengthsFrom onlyFiles setLenFail 0 files

/-- Piece/block geometry, as far as the orchestrator uses it. -/
structure Lengths where
  totalLength : Nat
  pieceLength : Nat
deriving DecidableEq, Repr

/-- `make_lengths`: total length is the sum of the descriptor file lengths. -/
def make_lengths (fileLengths : List Nat) (pieceLength : Nat) : Lengths :=
  ⟨fileLengths.sum, pieceLength⟩

/-- Result of `FileOps::initial_check` (its body lives in `file_ops.rs`;
the orchestrator only consumes the result record). -/
structure InitialCheckResults where
  havePieces : List Bool
  neededPieces : List Bool
  haveBytes : Nat
  neededBytes : Nat
deriving DecidableEq, Repr

/-- `ChunkTracker::new(needed_pieces, have_pieces, lengths)`: the
orchestrator only invokes the constructor, modelled as a record of its
arguments. -/
structure ChunkTracker where
  neededPieces : List Bool
  havePieces : List Bool
  lengths : Lengths
deriving DecidableEq, Repr

/-- `TorrentStateLive::new(...)`: the live torrent state, the component
that serves block requests once constructed. Modelled as a record of the
constructor arguments the claims refer to. -/
structure TorrentStateLive where
  files : List FileHandle
  filenames : List PathId
  chunkTracker : ChunkTracker
  lengths : Lengths
  haveBytes : Nat
  neededBytes : Nat
deriving DecidableEq, Repr

/-- Observable milestones of the straight-line body of
`TorrentManager::start`, in the order the code reaches them. -/
inductive StartEvent where
  | filesOpened
  | initialCheckCompleted
  | lengthsEnsured
  | chunkTrackerConstructed
  | liveStateConstructed
  | backgroundTasksSpawned
deriving DecidableEq, Repr

/-- Inputs of `TorrentManager::start`: the options and descriptor data it
reads, the pre-existing on-disk state, the result the (external)
`initial_check` computation returns, and the injected outcome of each
`set_len` call. -/
structure StartInput where
  overwrite : Bool
  onlyFiles : Option (List Nat)
  torrentFiles : List (PathId × Nat)
  pieceLength : Nat
  fs : FS
  checkResults : InitialCheckResults
  setLenFail : List Bool
deriving DecidableEq, Repr

/-- `TorrentManager::start`: open/create every file (failing fast),
run `initial_check` to completion in place (`spawn_block_in_place`),
pre-size the non-excluded files best-effort, construct the `ChunkTracker`
from the check results, then construct the live state and spawn the
background tasks. Returns the milestone trace together with the final
on-disk state and the live state. -/
def start (inp : StartInput) :
    Except StartError (List StartEvent × FS × TorrentStateLive) :=
  match openAllFiles inp.overwrite inp.fs (inp.torrentFiles.map Prod.fst) with
  | .error e => .error e
  | .ok (fs1, handles) =>
    let lengths := make_lengths (inp.torrentFiles.map Prod.snd) inp.pieceLength
    -- initial check runs to completion here, before anything below exists
    let check := inp.checkResults
    let handles1 := ensureAllLengths inp.onlyFiles inp.setLenFail
      (handles.zip (inp.torrentFiles.map Prod.snd))
    let ct : ChunkTracker := ⟨check.neededPieces, check.havePieces, lengths⟩
    let live : TorrentStateLive :=
      ⟨handles1, inp.torrentFiles.map Prod.fst, ct, lengths,
        check.haveBytes, check.neededBytes⟩
    .ok ([.filesOpened, .initialCheckCompleted, .lengthsEnsured,
          .chunkTrackerConstructed, .liveStateConstructed,
          .backgroundTasksSpawned], fs1, live)

/-- Modulus of u64 arithmetic. -/
def U64MOD : Nat := 2 ^ 64

/-- `u64::wrapping_sub` on values reduced into u64 range. -/
def wrappingSub64 (a b : Nat) : Nat :=
  (a % U64MOD + U64MOD - b % U64MOD) % U64MOD

/-- Plain (non-wrapping) u64 subtraction: an underflow is an arithmetic
overflow error in the source, modelled as `none`. -/
def checkedSub64 (a b : Nat) : Option Nat :=
  if b ≤ a then some (a - b) else none

/-- The stats snapshot fields the sampling task reads. -/
structure StatsSnapshot where
  fetched_bytes : Nat
  downloaded_and_checked_bytes : Nat
deriving DecidableEq, Repr

/-- The remaining-bytes computation of the `speed_estimator_updater` task:
`needed.wrapping_sub(fetched).min(needed - downloaded_and_checked_bytes)`,
where the second subtraction is the plain, non-wrapping one. -/
def speedEstimatorRemaining (needed fetched checked : Nat) : Option Nat :=
  (checkedSub64 needed checked).map (fun d => min (wrappingSub64 needed fetched) d)

/-- One iteration of the sampling loop: the pair
`(fetched, remaining)` passed to `estimator.add_snapshot`. -/
def speed_estimator_tick (neededInitially : Nat) (stats : StatsSnapshot) :
    Option (Nat × Nat) :=
  (speedEstimatorRemaining neededInitially stats.fetched_bytes
      stats.downloaded_and_checked_bytes).map
    (fun remaining => (stats.fetched_bytes, remaining))

/-- Modelled from the spec for claim C1 only (refinement target, not from
the source): remaining work computed as `needed_initially` minus
`downloaded_and_checked`, clamped to never exceed `needed_initially` and
never go below zero. -/
def remainingPerSpecClaim (needed checked : Nat) : Nat :=
  min (needed - checked) needed

/-- `TrackerRequestEvent` from `tracker_comms`. -/
inductive TrackerRequestEvent where
  | started
  | stopped
  | completed
deriving DecidableEq, Repr

/-- `TrackerRequest` from `tracker_comms`, as filled in by
`single_tracker_monitor`. -/
structure TrackerRequest where
  info_hash : List Nat
  peer_id : List Nat
  port : Nat
  uploaded : Nat
  downloaded : Nat
  left : Nat
  compact : Bool
  no_peer_id : Bool
  event : Option TrackerRequestEvent
  ip : Option Nat
  numwant : Option Nat
  key : Option Nat
  trackerid : Option Nat
deriving DecidableEq, Repr

/-- The per-torrent constants read from the live state
(`state.info_hash()`, `state.peer_id()`). -/
structure TorrentIdent where
  info_hash : List Nat
  peer_id : List Nat
deriving DecidableEq, Repr

/-- The aggregate counters re-read from the live state on each announce
iteration (`get_uploaded_bytes`, `get_downloaded_bytes`,
`get_left_to_download_bytes`). -/
structure AggregateCounters where
  uploaded : Nat
  downloaded : Nat
  left : Nat
deriving DecidableEq, Repr

/-- The announce-request construction at the top of each
`single_tracker_monitor` iteration. -/
def buildTrackerRequest (tid : TorrentIdent) (c : AggregateCounters)
    (event : Option TrackerRequestEvent) : TrackerRequest :=
  { info_hash := tid.info_hash
    peer_id := tid.peer_id
    port := 6778
    uploaded := c.uploaded
    downloaded := c.downloaded
    left := c.left
    compact := true
    no_peer_id := false
    event := event
    ip := none
    numwant := none
    key := none
    trackerid := none }

/-- A peer socket address (ip, port). -/
abbrev SockAddr := Nat × Nat

/-- Classification of the HTTP-success body as bencode decoding sees it:
it decodes as a `TrackerError` failure payload, as a `TrackerResponse`,
or as neither. -/
inductive DecodedBody where
  | failure (reason : List Nat)
  | ok (interval : Nat) (peers : List SockAddr)
  | undecodable
deriving DecidableEq, Repr

/-- Outcome of the HTTP exchange `reqwest::get` + status + body read. -/
inductive TransportResult where
  | transportErr
  | resp (statusSuccess : Bool) (body : DecodedBody)
deriving DecidableEq, Repr

/-- Error classification of one announce attempt. -/
inductive TrackerOneError where
  | transport
  | httpStatus
  | trackerFailure (reason : List Nat)
  | decodeError
deriving DecidableEq, Repr

/-- `tracker_one_request`: transport error propagates; a non-success HTTP
status bails; a body decoding as `TrackerError` bails with its failure
reason; an undecodable success body is a decode error; otherwise the
peers of the response are delivered along with its `interval`. -/
def tracker_one_request :
    TransportResult → Except TrackerOneError (Nat × List SockAddr)
  | .transportErr => .error .transport
  | .resp false _ => .error .httpStatus
  | .resp true (.failure r) => .error (.trackerFailure r)
  | .resp true .undecodable => .error .decodeError
  | .resp true (.ok interval peers) => .ok (interval, peers)

/-- `state.add_peer_if_not_seen(addr)`: deduplicating append. -/
def add_peer_if_not_seen (ps : List SockAddr) (p : SockAddr) : List SockAddr :=
  if p ∈ ps then ps else ps ++ [p]

/-- Feeding every peer of a successful response into the peer set. -/
def addPeers (ps : List SockAddr) (new : List SockAddr) : List SockAddr :=
  new.foldl add_peer_if_not_seen ps

/-- State carried across iterations of `single_tracker_monitor`:
the stored announce event and the (shared) peer set it feeds. -/
structure MonitorState where
  event : Option TrackerRequestEvent
  peers : List SockAddr
deriving DecidableEq, Repr

/-- What one loop iteration produces: the successor state, the sleep
duration (in seconds) before the next announce, and the request it sent. -/
structure StepResult where
  state : MonitorState
  sleepSecs : Nat
  request : TrackerRequest
deriving DecidableEq, Repr

/-- One iteration of the `single_tracker_monitor` loop: build the request
from the current counters and stored event; on success add the response
peers, clear the event and sleep for the forced interval if configured,
else the response interval; on any failure leave the state unchanged and
sleep the fixed 60-second fallback. -/
def singleTrackerStep (tid : TorrentIdent) (forceTrackerInterval : Option Nat)
    (c : AggregateCounters) (st : MonitorState) (tr : TransportResult) :
    StepResult :=
  let request := buildTrackerRequest tid c st.event
  match tracker_one_request tr with
  | .ok (interval, peers) =>
    { state := { event := none, peers := addPeers st.peers peers }
      sleepSecs := forceTrackerInterval.getD interval
      request := request }
  | .error _ =>
    { state := st, sleepSecs := 60, request := request }

/-- Initial state of the loop: `event = Some(TrackerRequestEvent::Started)`. -/
def monitorInit (ps : List SockAddr) : MonitorState :=
  { event := some .started, peers := ps }

/-- Whether one announce attempt succeeds. -/
def trSuccess (tr : TransportResult) : Bool :=
  match tracker_one_request tr with
  | .ok _ => true
  | .error _ => false

/-- Running the monitor loop over a list of per-iteration inputs
(counters snapshot, transport outcome), returning the final state. -/
def monitorRun (tid : TorrentIdent) (f : Option Nat) :
    MonitorState → List (AggregateCounters × TransportResult) → MonitorState
  | st, [] => st
  | st, (c, tr) :: rest =>
    monitorRun tid f (singleTrackerStep tid f c st tr).state rest

/-- Running the monitor loop and recording each iteration's result. -/
def monitorTrace (tid : TorrentIdent) (f : Option Nat) :
    MonitorState → List (AggregateCounters × TransportResult) → List StepResult
  | _, [] => []
  | st, (c, tr) :: rest =>
    let r := singleTrackerStep tid f c st tr
    r :: monitorTrace tid f r.state rest

/-- Modelled from the spec for claim C2 only (refinement target, not from
the source): success-path sleep is the override if supplied, else the
maximum of the response interval and a configured minimum. -/
def sleepPerSpecClaim (forceTrackerInterval : Option Nat)
    (configuredMinimum interval : Nat) : Nat :=
  forceTrackerInterval.getD (max interval configuredMinimum)

/-- Default file handle for indexed access. -/
def dummyHandle : FileHandle := ⟨0, [], true, true⟩

/-- Default (handle, length) pair for indexed access. -/
def dummyFilePair : FileHandle × Nat := (dummyHandle, 0)

/-- Default counters for indexed access. -/
def dummyCounters : AggregateCounters := ⟨0, 0, 0⟩

/-- Default loop-iteration input for indexed access. -/
def dummyStepInput : AggregateCounters × TransportResult :=
  (dummyCounters, .transportErr)

/-- Default loop-iteration result for indexed access. -/
def dummyStepResult : StepResult :=
  ⟨⟨none, []⟩, 0, buildTrackerRequest ⟨[], []⟩ dummyCounters none⟩

/-! ## Helper lemmas -/

theorem checkedSub64_of_le {a b : Nat} (h : b ≤ a) :
    checkedSub64 a b = some (a - b) := by
  simp [checkedSub64, h]

/-! ## Claim theorems -/

/-- C1, counterexample: at `needed = 100`, `fetched = 60`, `checked = 50`
the sampling task feeds `remaining = 40` to the estimator, while the
claim's formula (`needed - checked` clamped into `[0, needed]`) gives 50:
the raw fetched counter (with its duplicate/wasted bytes) does drive the
remaining value below `needed - checked`. -/
theorem remaining_not_needed_minus_checked_cex :
    speed_estimator_tick 100 ⟨60, 50⟩ = some (60, 40) ∧
    remainingPerSpecClaim 100 50 = 50 ∧ (40 : Nat) ≠ 50 := by
  refine ⟨by decide, by decide, by decide⟩

/-- C1, amended: the remaining value fed to the estimator is
`min(needed.wrapping_sub(fetched), needed - checked)` — based on the raw
fetched counter, with `needed - checked` only as an upper clamp; provided
`checked ≤ needed` the computation is defined, never exceeds
`needed - checked`, and never exceeds `needed` (and, being a `u64`, is
never below zero). -/
theorem remaining_formula_and_bounds (needed fetched checked : Nat)
    (h : checked ≤ needed) :
    speed_estimator_tick needed ⟨fetched, checked⟩ =
      some (fetched, min (wrappingSub64 needed fetched) (needed - checked)) ∧
    min (wrappingSub64 needed fetched) (needed - checked) ≤ needed - checked ∧
    min (wrappingSub64 needed fetched) (needed - checked) ≤ needed := by
  refine ⟨?_, Nat.min_le_right _ _,
    le_trans (Nat.min_le_right _ _) (Nat.sub_le _ _)⟩
  simp [speed_estimator_tick, speedEstimatorRemaining, checkedSub64_of_le h]

/-- Witness for `remaining_formula_and_bounds` at a concrete input. -/
theorem remaining_formula_and_bounds_w :
    speed_estimator_tick 1000 ⟨700, 600⟩ =
      some (700, min (wrappingSub64 1000 700) (1000 - 600)) ∧
    min (wrappingSub64 1000 700) (1000 - 600) ≤ 1000 - 600 ∧
    min (wrappingSub64 1000 700) (1000 - 600) ≤ 1000 :=
  remaining_formula_and_bounds 1000 700 600 (by decide)

/-- C10: the subtraction `needed - downloaded_and_checked_bytes` in the
sampling task is the plain (non-wrapping) one; under the precondition
`checked ≤ needed` it never underflows and the whole remaining-bytes
computation is total. -/
theorem remaining_plain_sub_total (needed fetched checked : Nat)
    (h : checked ≤ needed) :
    checkedSub64 needed checked = some (needed - checked) ∧
    (speedEstimatorRemaining needed fetched checked).isSome = true := by
  refine ⟨checkedSub64_of_le h, ?_⟩
  simp [speedEstimatorRemaining, checkedSub64_of_le h]

/-- Witness for `remaining_plain_sub_total` at a concrete input. -/
theorem remaining_plain_sub_total_w :
    checkedSub64 5 3 = some (5 - 3) ∧
    (speedEstimatorRemaining 5 9 3).isSome = true :=
  remaining_plain_sub_total 5 9 3 (by decide)

theorem singleTrackerStep_request (tid : TorrentIdent) (f : Option Nat)
    (c : AggregateCounters) (st : MonitorState) (tr : TransportResult) :
    (singleTrackerStep tid f c st tr).request =
      buildTrackerRequest tid c st.event := by
  cases h : tracker_one_request tr with
  | error e => simp [singleTrackerStep, h]
  | ok p => obtain ⟨i, ps⟩ := p; simp [singleTrackerStep, h]

theorem singleTrackerStep_event (tid : TorrentIdent) (f : Option Nat)
    (c : AggregateCounters) (st : MonitorState) (tr : TransportResult) :
    (singleTrackerStep tid f c st tr).state.event =
      cond (trSuccess tr) none st.event := by
  cases h : tracker_one_request tr with
  | error e => simp [singleTrackerStep, trSuccess, h]
  | ok p => obtain ⟨i, ps⟩ := p; simp [singleTrackerStep, trSuccess, h]

theorem monitorRun_event (tid : TorrentIdent) (f : Option Nat) :
    ∀ (steps : List (AggregateCounters × TransportResult)) (st : MonitorState),
      (monitorRun tid f st steps).event =
        cond (steps.any (fun s => trSuccess s.2)) none st.event := by
  intro steps
  induction steps with
  | nil => intro st; simp [monitorRun]
  | cons head rest ih =>
    intro st
    obtain ⟨c, tr⟩ := head
    simp only [monitorRun, List.any_cons]
    rw [ih, singleTrackerStep_event]
    cases hs : trSuccess tr
    · simp
    · cases hrest : rest.any (fun s => trSuccess s.2) <;> simp

theorem monitorTrace_request (tid : TorrentIdent) (f : Option Nat) :
    ∀ (steps : List (AggregateCounters × TransportResult)) (st : MonitorState)
      (i : Nat), i < steps.length →
      ∃ ev, ((monitorTrace tid f st steps).getD i dummyStepResult).request =
        buildTrackerRequest tid (steps.getD i dummyStepInput).1 ev := by
  intro steps
  induction steps with
  | nil => intro st i hi; simp at hi
  | cons head rest ih =>
    intro st i hi
    obtain ⟨c, tr⟩ := head
    cases i with
    | zero =>
      refine ⟨st.event, ?_⟩
      simp only [monitorTrace, List.getD_cons_zero]
      exact singleTrackerStep_request tid f c st tr
    | succ n =>
      have hn : n < rest.length := by
        simpa using hi
      obtain ⟨ev, hev⟩ := ih (singleTrackerStep tid f c st tr).state n hn
      refine ⟨ev, ?_⟩
      simpa only [monitorTrace, List.getD_cons_succ] using hev

/-- C5: the announce event starts as `Started` and the first iteration's
request carries it; a failed iteration leaves the stored event unchanged
while a successful one clears it to `none`; consequently, over any run
from the initial state, the stored event is `none` exactly when some
iteration has succeeded — it is never `Started` again after a success. -/
theorem announce_event_lifecycle (tid : TorrentIdent) (f : Option Nat)
    (ps : List SockAddr) (steps : List (AggregateCounters × TransportResult))
    (st : MonitorState) (c : AggregateCounters) (tr : TransportResult) :
    (monitorInit ps).event = some TrackerRequestEvent.started ∧
    (singleTrackerStep tid f c (monitorInit ps) tr).request.event =
      some TrackerRequestEvent.started ∧
    (singleTrackerStep tid f c st tr).state.event =
      cond (trSuccess tr) none st.event ∧
    (monitorRun tid f (monitorInit ps) steps).event =
      cond (steps.any (fun s => trSuccess s.2)) none
        (some TrackerRequestEvent.started) :=
  ⟨rfl, by rw [singleTrackerStep_request]; rfl,
    singleTrackerStep_event tid f c st tr,
    by rw [monitorRun_event]; rfl⟩

/-- C4: every failing announce shape — transport failure, non-success
HTTP status, an HTTP-success body decoding as an explicit failure-reason
payload (its reason surfaced in the error), and an undecodable success
body — produces the corresponding error from `tracker_one_request`, and
the loop iteration then leaves the state (peer set and stored event)
unchanged and sleeps the fixed 60-second fallback. -/
theorem tracker_failure_no_peers_sleep60_event_kept (tid : TorrentIdent)
    (f : Option Nat) (c : AggregateCounters) (st : MonitorState)
    (reason : List Nat) (b : DecodedBody) :
    tracker_one_request .transportErr = .error .transport ∧
    tracker_one_request (.resp false b) = .error .httpStatus ∧
    tracker_one_request (.resp true (.failure reason)) =
      .error (.trackerFailure reason) ∧
    tracker_one_request (.resp true .undecodable) = .error .decodeError ∧
    singleTrackerStep tid f c st .transportErr =
      ⟨st, 60, buildTrackerRequest tid c st.event⟩ ∧
    singleTrackerStep tid f c st (.resp false b) =
      ⟨st, 60, buildTrackerRequest tid c st.event⟩ ∧
    singleTrackerStep tid f c st (.resp true (.failure reason)) =
      ⟨st, 60, buildTrackerRequest tid c st.event⟩ ∧
    singleTrackerStep tid f c st (.resp true .undecodable) =
      ⟨st, 60, buildTrackerRequest tid c st.event⟩ := by
  refine ⟨rfl, ?_, rfl, rfl, rfl, ?_, rfl, rfl⟩ <;> cases b <;> rfl

/-- C2, counterexample: with no override configured and a response
interval of 0 seconds, the loop sleeps 0 seconds — the raw response
interval — whereas the claim's formula with any positive configured
minimum (1s taken as a concrete candidate) would sleep that minimum. No
minimum is applied anywhere in the code. -/
theorem sleep_ignores_configured_minimum_cex :
    (singleTrackerStep ⟨[], []⟩ none dummyCounters (monitorInit [])
        (.resp true (.ok 0 []))).sleepSecs = 0 ∧
    sleepPerSpecClaim none 1 0 = 1 ∧ (0 : Nat) ≠ 1 :=
  ⟨rfl, rfl, by decide⟩

/-- C2, amended: after a successful announce the loop sleeps the fixed
configured override when one is supplied and otherwise exactly the
response interval; no configured minimum exists or is applied, so a
response interval below any such minimum is used as-is. -/
theorem sleep_is_override_or_raw_interval (tid : TorrentIdent)
    (f : Option Nat) (c : AggregateCounters) (st : MonitorState)
    (interval : Nat) (peers : List SockAddr) :
    (singleTrackerStep tid f c st (.resp true (.ok interval peers))).sleepSecs =
      f.getD interval := rfl

/-- C9: every request built by the tracker loop carries the fixed values
`port = 6778`, `compact = true`, `no_peer_id = false`, absent `ip`,
`numwant`, `key` and `trackerid`, and the torrent's identifiers; its
`uploaded`, `downloaded` and `left` fields are re-read from the live
state's counters of that iteration. -/
theorem announce_request_fixed_fields (tid : TorrentIdent) (f : Option Nat)
    (st : MonitorState) (steps : List (AggregateCounters × TransportResult))
    (i : Nat) (hi : i < steps.length) :
    ((monitorTrace tid f st steps).getD i dummyStepResult).request.port = 6778 ∧
    ((monitorTrace tid f st steps).getD i dummyStepResult).request.compact = true ∧
    ((monitorTrace tid f st steps).getD i dummyStepResult).request.no_peer_id = false ∧
    ((monitorTrace tid f st steps).getD i dummyStepResult).request.ip = none ∧
    ((monitorTrace tid f st steps).getD i dummyStepResult).request.numwant = none ∧
    ((monitorTrace tid f st steps).getD i dummyStepResult).request.key = none ∧
    ((monitorTrace tid f st steps).getD i dummyStepResult).request.trackerid = none ∧
    ((monitorTrace tid f st steps).getD i dummyStepResult).request.info_hash =
      tid.info_hash ∧
    ((monitorTrace tid f st steps).getD i dummyStepResult).request.peer_id =
      tid.peer_id ∧
    ((monitorTrace tid f st steps).getD i dummyStepResult).request.uploaded =
      (steps.getD i dummyStepInput).1.uploaded ∧
    ((monitorTrace tid f st steps).getD i dummyStepResult).request.downloaded =
      (steps.getD i dummyStepInput).1.downloaded ∧
    ((monitorTrace tid f st steps).getD i dummyStepResult).request.left =
      (steps.getD i dummyStepInput).1.left := by
  obtain ⟨ev, hev⟩ := monitorTrace_request tid f steps st i hi
  rw [hev]
  exact ⟨rfl, rfl, rfl, rfl, rfl, rfl, rfl, rfl, rfl, rfl, rfl, rfl⟩

/-- Witness for `announce_request_fixed_fields` at a concrete run. -/
theorem announce_request_fixed_fields_w :
    ((monitorTrace ⟨[7], [8]⟩ none (monitorInit [])
        [(⟨1, 2, 3⟩, .transportErr)]).getD 0 dummyStepResult).request.port = 6778 ∧
    ((monitorTrace ⟨[7], [8]⟩ none (monitorInit [])
        [(⟨1, 2, 3⟩, .transportErr)]).getD 0 dummyStepResult).request.compact = true ∧
    ((monitorTrace ⟨[7], [8]⟩ none (monitorInit [])
        [(⟨1, 2, 3⟩, .transportErr)]).getD 0 dummyStepResult).request.no_peer_id = false ∧
    ((monitorTrace ⟨[7], [8]⟩ none (monitorInit [])
        [(⟨1, 2, 3⟩, .transportErr)]).getD 0 dummyStepResult).request.ip = none ∧
    ((monitorTrace ⟨[7], [8]⟩ none (monitorInit [])
        [(⟨1, 2, 3⟩, .transportErr)]).getD 0 dummyStepResult).request.numwant = none ∧
    ((monitorTrace ⟨[7], [8]⟩ none (monitorInit [])
        [(⟨1, 2, 3⟩, .transportErr)]).getD 0 dummyStepResult).request.key = none ∧
    ((monitorTrace ⟨[7], [8]⟩ none (monitorInit [])
        [(⟨1, 2, 3⟩, .transportErr)]).getD 0 dummyStepResult).request.trackerid = none ∧
    ((monitorTrace ⟨[7], [8]⟩ none (monitorInit [])
        [(⟨1, 2, 3⟩, .transportErr)]).getD 0 dummyStepResult).request.info_hash =
      (⟨[7], [8]⟩ : TorrentIdent).info_hash ∧
    ((monitorTrace ⟨[7], [8]⟩ none (monitorInit [])
        [(⟨1, 2, 3⟩, .transportErr)]).getD 0 dummyStepResult).request.peer_id =
      (⟨[7], [8]⟩ : TorrentIdent).peer_id ∧
    ((monitorTrace ⟨[7], [8]⟩ none (monitorInit [])
        [(⟨1, 2, 3⟩, .transportErr)]).getD 0 dummyStepResult).request.uploaded =
      ([((⟨1, 2, 3⟩ : AggregateCounters), TransportResult.transportErr)].getD 0
        dummyStepInput).1.uploaded ∧
    ((monitorTrace ⟨[7], [8]⟩ none (monitorInit [])
        [(⟨1, 2, 3⟩, .transportErr)]).getD 0 dummyStepResult).request.downloaded =
      ([((⟨1, 2, 3⟩ : AggregateCounters), TransportResult.transportErr)].getD 0
        dummyStepInput).1.downloaded ∧
    ((monitorTrace ⟨[7], [8]⟩ none (monitorInit [])
        [(⟨1, 2, 3⟩, .transportErr)]).getD 0 dummyStepResult).request.left =
      ([((⟨1, 2, 3⟩ : AggregateCounters), TransportResult.transportErr)].getD 0
        dummyStepInput).1.left :=
  announce_request_fixed_fields ⟨[7], [8]⟩ none (monitorInit [])
    [(⟨1, 2, 3⟩, .transportErr)] 0 (by decide)

theorem fsLookup_fsInsert (fs : FS) (q : PathId) (c : FileContents)
    (p : PathId) :
    fsLookup (fsInsert fs q c) p = if p = q then some c else fsLookup fs p := by
  induction fs with
  | nil => simp [fsInsert, fsLookup]
  | cons head rest ih =>
    obtain ⟨r, d⟩ := head
    by_cases hqr : q = r
    · subst hqr
      simp only [fsInsert, if_pos rfl, fsLookup]
      by_cases hpq : p = q <;> simp [fsLookup, hpq]
    · rw [fsInsert, if_neg hqr]
      by_cases hpr : p = r
      · subst hpr
        have hpq : ¬ p = q := fun hh => hqr hh.symm
        simp [fsLookup, hpq]
      · simp [fsLookup, hpr, ih]

theorem openTorrentFile_ok_spec (ov : Bool) (fs : FS) (p : PathId)
    (fs1 : FS) (h : FileHandle)
    (hok : openTorrentFile ov fs p = .ok (fs1, h)) :
    h.path = p ∧ h.readable = true ∧ h.writable = true ∧
    (ov = true → h.contents = (fsLookup fs p).getD []) ∧
    (ov = false → fsLookup fs p = none ∧ h.contents = []) := by
  cases ov with
  | true =>
    cases hl : fsLookup fs p with
    | some c =>
      simp only [openTorrentFile, hl, if_true, Except.ok.injEq,
        Prod.mk.injEq] at hok
      obtain ⟨hfs, hh⟩ := hok
      subst hh
      simp [hl]
    | none =>
      simp only [openTorrentFile, hl, if_true, Except.ok.injEq,
        Prod.mk.injEq] at hok
      obtain ⟨hfs, hh⟩ := hok
      subst hh
      simp [hl]
  | false =>
    cases hl : fsLookup fs p with
    | some c =>
      simp [openTorrentFile, hl] at hok
    | none =>
      simp only [openTorrentFile, hl, Bool.false_eq_true, if_false,
        Except.ok.injEq, Prod.mk.injEq] at hok
      obtain ⟨hfs, hh⟩ := hok
      subst hh
      simp [hl]

theorem openAllFiles_conflict :
    ∀ (paths : List PathId) (fs : FS),
      (paths.any fun p => (fsLookup fs p).isSome) = true →
      ∃ q, openAllFiles false fs paths = .error (.fileConflict q) := by
  intro paths
  induction paths with
  | nil => intro fs h; simp at h
  | cons p rest ih =>
    intro fs h
    rw [List.any_cons] at h
    cases hl : fsLookup fs p with
    | some c =>
      refine ⟨p, ?_⟩
      simp [openAllFiles, openTorrentFile, hl]
    | none =>
      have hrest : (rest.any fun q => (fsLookup fs q).isSome) = true := by
        simpa [hl] using h
      have hrest2 :
          (rest.any fun q => (fsLookup (fsInsert fs p []) q).isSome) = true := by
        rw [List.any_eq_true] at hrest ⊢
        obtain ⟨x, hx, hsome⟩ := hrest
        refine ⟨x, hx, ?_⟩
        rw [fsLookup_fsInsert]
        by_cases hxp : x = p
        · simp [hxp]
        · simp [hxp, hsome]
      obtain ⟨q, hq⟩ := ih (fsInsert fs p []) hrest2
      refine ⟨q, ?_⟩
      simp [openAllFiles, openTorrentFile, hl, hq]

theorem openAllFiles_ok_paths (ov : Bool) :
    ∀ (paths : List PathId) (fs fs2 : FS) (hs : List FileHandle),
      openAllFiles ov fs paths = .ok (fs2, hs) →
      hs.map FileHandle.path = paths := by
  intro paths
  induction paths with
  | nil =>
    intro fs fs2 hs h
    simp only [openAllFiles, Except.ok.injEq, Prod.mk.injEq] at h
    obtain ⟨-, hh⟩ := h
    subst hh
    rfl
  | cons p rest ih =>
    intro fs fs2 hs h
    cases hop : openTorrentFile ov fs p with
    | error e =>
      simp [openAllFiles, hop] at h
    | ok pr =>
      obtain ⟨fs1, h1⟩ := pr
      cases hrec : openAllFiles ov fs1 rest with
      | error e =>
        simp [openAllFiles, hop, hrec] at h
      | ok pr2 =>
        obtain ⟨fs3, hs3⟩ := pr2
        simp only [openAllFiles, hop, hrec, Except.ok.injEq,
          Prod.mk.injEq] at h
        obtain ⟨hfs, hh⟩ := h
        subst hh
        have hpath := (openTorrentFile_ok_spec ov fs p fs1 h1 hop).1
        simp [List.map_cons, hpath, ih fs1 fs3 hs3 hrec]

theorem ensureLengthsFrom_length (o : Option (List Nat)) (fails : List Bool) :
    ∀ (idx : Nat) (files : List (FileHandle × Nat)),
      (ensureLengthsFrom o fails idx files).length = files.length := by
  intro idx files
  induction files generalizing idx with
  | nil => rfl
  | cons head rest ih =>
    obtain ⟨hd, l⟩ := head
    simp [ensureLengthsFrom, ih]

theorem ensureLengthsFrom_map_path (o : Option (List Nat)) (fails : List Bool) :
    ∀ (idx : Nat) (files : List (FileHandle × Nat)),
      (ensureLengthsFrom o fails idx files).map FileHandle.path =
        files.map (fun x => x.1.path) := by
  intro idx files
  induction files generalizing idx with
  | nil => rfl
  | cons head rest ih =>
    obtain ⟨hd, l⟩ := head
    simp only [ensureLengthsFrom, List.map_cons]
    rw [ih]
    congr 1
    by_cases h1 : skipByOnlyFiles o idx = true
    · rw [if_pos h1]
    · rw [if_neg h1]
      by_cases h2 : fails.getD idx false = true
      · rw [if_pos h2]
      · rw [if_neg h2]
        rfl

theorem ensureLengthsFrom_getD (o : Option (List Nat)) (fails : List Bool) :
    ∀ (files : List (FileHandle × Nat)) (idx i : Nat), i < files.length →
      (ensureLengthsFrom o fails idx files).getD i dummyHandle =
        (if skipByOnlyFiles o (idx + i) then (files.getD i dummyFilePair).1
         else if fails.getD (idx + i) false then (files.getD i dummyFilePair).1
         else ensure_file_length (files.getD i dummyFilePair).1
                (files.getD i dummyFilePair).2) := by
  intro files
  induction files with
  | nil => intro idx i hi; simp at hi
  | cons head rest ih =>
    intro idx i hi
    obtain ⟨hd, l⟩ := head
    cases i with
    | zero =>
      simp only [ensureLengthsFrom, List.getD_cons_zero, Nat.add_zero]
    | succ n =>
      have hn : n < rest.length := by simpa using hi
      have hrec := ih (idx + 1) n hn
      simp only [ensureLengthsFrom, List.getD_cons_succ]
      rw [hrec]
      have harith : idx + 1 + n = idx + (n + 1) := by omega
      rw [harith]

theorem start_ok_elim (inp : StartInput) (tr : List StartEvent) (fs2 : FS)
    (live : TorrentStateLive)
    (h : start inp = .ok (tr, fs2, live)) :
    ∃ handles,
      openAllFiles inp.overwrite inp.fs (inp.torrentFiles.map Prod.fst) =
        .ok (fs2, handles) ∧
      tr = [.filesOpened, .initialCheckCompleted, .lengthsEnsured,
            .chunkTrackerConstructed, .liveStateConstructed,
            .backgroundTasksSpawned] ∧
      live = ⟨ensureAllLengths inp.onlyFiles inp.setLenFail
                (handles.zip (inp.torrentFiles.map Prod.snd)),
              inp.torrentFiles.map Prod.fst,
              ⟨inp.checkResults.neededPieces, inp.checkResults.havePieces,
               make_lengths (inp.torrentFiles.map Prod.snd) inp.pieceLength⟩,
              make_lengths (inp.torrentFiles.map Prod.snd) inp.pieceLength,
              inp.checkResults.haveBytes, inp.checkResults.neededBytes⟩ := by
  unfold start at h
  split at h
  · exact absurd h (by simp)
  · rename_i fs1 handles heq
    simp only [Except.ok.injEq, Prod.mk.injEq] at h
    obtain ⟨htr, hfs, hlive⟩ := h
    subst hfs
    exact ⟨handles, heq, htr.symm, hlive.symm⟩

/-- C3, counterexample: opening an already-existing target in overwrite
mode yields a handle on the file's previous contents — the source opens
with `create(true)` and no `truncate`, so the prior content is preserved,
not discarded. -/
theorem overwrite_open_preserves_contents_cex :
    openTorrentFile true [(1, [5])] 1 =
      .ok ([(1, [5])], ⟨1, [5], true, true⟩) ∧
    (⟨1, [5], true, true⟩ : FileHandle).contents ≠ [] :=
  ⟨rfl, by decide⟩

/-- C3, amended: at startup each successfully opened target is a
read+write handle (kept in the files vector for the lifetime of the
download) on the requested path; when overwrite is requested an existing
file is opened with its previous contents preserved (created empty only
if missing) — not truncated; when overwrite is not requested the file
must not have existed and is created new (then reopened read+write). -/
theorem open_modes_read_write_no_truncate (ov : Bool) (fs : FS) (p : PathId)
    (fs1 : FS) (h : FileHandle)
    (hok : openTorrentFile ov fs p = .ok (fs1, h)) :
    h.path = p ∧ h.readable = true ∧ h.writable = true ∧
    (ov = true → h.contents = (fsLookup fs p).getD []) ∧
    (ov = false → fsLookup fs p = none ∧ h.contents = []) :=
  openTorrentFile_ok_spec ov fs p fs1 h hok

/-- Witness for `open_modes_read_write_no_truncate` at a concrete input. -/
theorem open_modes_read_write_no_truncate_w :
    (⟨2, [9, 9], true, true⟩ : FileHandle).path = 2 ∧
    (⟨2, [9, 9], true, true⟩ : FileHandle).readable = true ∧
    (⟨2, [9, 9], true, true⟩ : FileHandle).writable = true ∧
    (true = true → (⟨2, [9, 9], true, true⟩ : FileHandle).contents =
      (fsLookup [(2, [9, 9])] 2).getD []) ∧
    (true = false → fsLookup [(2, [9, 9])] 2 = none ∧
      (⟨2, [9, 9], true, true⟩ : FileHandle).contents = []) :=
  open_modes_read_write_no_truncate true [(2, [9, 9])] 2 [(2, [9, 9])]
    ⟨2, [9, 9], true, true⟩ rfl

/-- C6, counterexample: with the download restricted to file 0 of a
two-file descriptor, the pre-sizing loop leaves file 1 untouched (its
contents stay empty instead of being extended to its declared length 1):
`ensure_length` is not invoked for files excluded by `only_files`.  The
claim would require both files to be sized, i.e. contents `[[0], [0]]`. -/
theorem ensure_length_skips_restricted_files_cex :
    (ensureAllLengths (some [0]) []
        [(⟨1, [], true, true⟩, 1), (⟨2, [], true, true⟩, 1)]).map
      (fun h => h.contents) = [[0], []] ∧
    ([[0], []] : List FileContents) ≠ [[0], [0]] :=
  ⟨rfl, by decide⟩

/-- C6, amended: at startup every file of the descriptor that is not
excluded by the `only_files` restriction (all files when there is none,
regardless of its pieces' verification state) has its size set to its
declared length; a file whose `set_len` fails — or one that is excluded —
is left unchanged, and in either case the loop continues over the
remaining files (failures are logged, never abort startup). -/
theorem ensure_length_per_file (onlyFiles : Option (List Nat))
    (fails : List Bool) (files : List (FileHandle × Nat)) (i : Nat)
    (hi : i < files.length) :
    (ensureAllLengths onlyFiles fails files).length = files.length ∧
    (ensureAllLengths onlyFiles fails files).getD i dummyHandle =
      (if skipByOnlyFiles onlyFiles i then (files.getD i dummyFilePair).1
       else if fails.getD i false then (files.getD i dummyFilePair).1
       else ensure_file_length (files.getD i dummyFilePair).1
              (files.getD i dummyFilePair).2) := by
  refine ⟨ensureLengthsFrom_length onlyFiles fails 0 files, ?_⟩
  have h := ensureLengthsFrom_getD onlyFiles fails files 0 i hi
  have harith : (0 : Nat) + i = i := Nat.zero_add i
  rw [harith] at h
  exact h

/-- Witness for `ensure_length_per_file` at a concrete input. -/
theorem ensure_length_per_file_w :
    (ensureAllLengths none [] [(⟨3, [1, 1, 1], true, true⟩, 2)]).length =
      [((⟨3, [1, 1, 1], true, true⟩ : FileHandle), 2)].length ∧
    (ensureAllLengths none [] [(⟨3, [1, 1, 1], true, true⟩, 2)]).getD 0
        dummyHandle =
      (if skipByOnlyFiles none 0
       then ([((⟨3, [1, 1, 1], true, true⟩ : FileHandle), 2)].getD 0
          dummyFilePair).1
       else if ([] : List Bool).getD 0 false
       then ([((⟨3, [1, 1, 1], true, true⟩ : FileHandle), 2)].getD 0
          dummyFilePair).1
       else ensure_file_length
          ([((⟨3, [1, 1, 1], true, true⟩ : FileHandle), 2)].getD 0
            dummyFilePair).1
          ([((⟨3, [1, 1, 1], true, true⟩ : FileHandle), 2)].getD 0
            dummyFilePair).2) :=
  ensure_length_per_file none [] [(⟨3, [1, 1, 1], true, true⟩, 2)] 0
    (by decide)

/-- C7: when overwrite is not requested, if any target file already
exists on disk then `start` fails with a `FileConflict` error — returned
synchronously, so no live state is ever constructed; and in any
successful `start` every file of the descriptor has been opened (the
live state holds one handle per descriptor file, on exactly the
descriptor's paths). -/
theorem start_file_conflict_and_all_opened (inp : StartInput)
    (hov : inp.overwrite = false) :
    (((inp.torrentFiles.map Prod.fst).any
        fun p => (fsLookup inp.fs p).isSome) = true →
      ∃ q, start inp = .error (.fileConflict q)) ∧
    (∀ tr fs2 live, start inp = .ok (tr, fs2, live) →
      live.files.map FileHandle.path = inp.torrentFiles.map Prod.fst ∧
      live.files.length = inp.torrentFiles.length) := by
  constructor
  · intro hexists
    obtain ⟨q, hq⟩ :=
      openAllFiles_conflict (inp.torrentFiles.map Prod.fst) inp.fs hexists
    refine ⟨q, ?_⟩
    unfold start
    rw [hov, hq]
  · intro tr fs2 live h
    obtain ⟨handles, hop, htr, hlive⟩ := start_ok_elim inp tr fs2 live h
    have hpaths := openAllFiles_ok_paths inp.overwrite
      (inp.torrentFiles.map Prod.fst) inp.fs fs2 handles hop
    have hlen : handles.length = (inp.torrentFiles.map Prod.fst).length := by
      rw [← hpaths, List.length_map]
    have hle : handles.length ≤ (inp.torrentFiles.map Prod.snd).length := by
      rw [hlen, List.length_map, List.length_map]
    subst hlive
    have hmap : (ensureAllLengths inp.onlyFiles inp.setLenFail
        (handles.zip (inp.torrentFiles.map Prod.snd))).map FileHandle.path =
        inp.torrentFiles.map Prod.fst := by
      calc (ensureAllLengths inp.onlyFiles inp.setLenFail
              (handles.zip (inp.torrentFiles.map Prod.snd))).map FileHandle.path
          = (handles.zip (inp.torrentFiles.map Prod.snd)).map
              (fun x => x.1.path) :=
            ensureLengthsFrom_map_path inp.onlyFiles inp.setLenFail 0 _
        _ = ((handles.zip (inp.torrentFiles.map Prod.snd)).map
              Prod.fst).map FileHandle.path := by
            rw [List.map_map]
            rfl
        _ = handles.map FileHandle.path := by
            rw [List.map_fst_zip handles (inp.torrentFiles.map Prod.snd) hle]
        _ = inp.torrentFiles.map Prod.fst := hpaths
    refine ⟨hmap, ?_⟩
    have hml := congrArg List.length hmap
    simpa [List.length_map] using hml

/-- Witness for `start_file_conflict_and_all_opened`: a concrete conflict
(the single target path 1 already exists) and a concrete success (empty
disk) of the startup sequence. -/
theorem start_file_conflict_and_all_opened_w :
    (∃ q, start ⟨false, none, [(1, 1)], 2, [(1, [7])],
        ⟨[true], [false], 0, 1⟩, []⟩ = .error (.fileConflict q)) ∧
    ((⟨[⟨1, [0], true, true⟩], [1], ⟨[false], [true], ⟨1, 2⟩⟩, ⟨1, 2⟩, 0, 1⟩ :
        TorrentStateLive).files.map FileHandle.path =
      [((1 : PathId), 1)].map Prod.fst ∧
     (⟨[⟨1, [0], true, true⟩], [1], ⟨[false], [true], ⟨1, 2⟩⟩, ⟨1, 2⟩, 0, 1⟩ :
        TorrentStateLive).files.length = [((1 : PathId), 1)].length) :=
  ⟨(start_file_conflict_and_all_opened
      ⟨false, none, [(1, 1)], 2, [(1, [7])], ⟨[true], [false], 0, 1⟩, []⟩
      rfl).1 (by decide),
   (start_file_conflict_and_all_opened
      ⟨false, none, [(1, 1)], 2, [], ⟨[true], [false], 0, 1⟩, []⟩ rfl).2
     [.filesOpened, .initialCheckCompleted, .lengthsEnsured,
      .chunkTrackerConstructed, .liveStateConstructed,
      .backgroundTasksSpawned]
     [(1, [])]
     ⟨[⟨1, [0], true, true⟩], [1], ⟨[false], [true], ⟨1, 2⟩⟩, ⟨1, 2⟩, 0, 1⟩
     rfl⟩

/-- C8: in every successful execution of `start`, the initial-check sweep
completes strictly before the `ChunkTracker` is constructed and strictly
before the live torrent state — the component that serves block requests —
exists; the ordering is the straight-line structure of the startup code,
not a race. -/
theorem initial_check_precedes_state_construction (inp : StartInput)
    (tr : List StartEvent) (fs2 : FS) (live : TorrentStateLive)
    (h : start inp = .ok (tr, fs2, live)) :
    tr.indexOf StartEvent.initialCheckCompleted <
      tr.indexOf StartEvent.chunkTrackerConstructed ∧
    tr.indexOf StartEvent.initialCheckCompleted <
      tr.indexOf StartEvent.liveStateConstructed ∧
    StartEvent.initialCheckCompleted ∈ tr ∧
    StartEvent.liveStateConstructed ∈ tr := by
  obtain ⟨handles, hop, htr, hlive⟩ := start_ok_elim inp tr fs2 live h
  subst htr
  exact ⟨by decide, by decide, by decide, by decide⟩

/-- Witness for `initial_check_precedes_state_construction` at a concrete
successful startup. -/
theorem initial_check_precedes_state_construction_w :
    [StartEvent.filesOpened, StartEvent.initialCheckCompleted,
     StartEvent.lengthsEnsured, StartEvent.chunkTrackerConstructed,
     StartEvent.liveStateConstructed,
     StartEvent.backgroundTasksSpawned].indexOf
        StartEvent.initialCheckCompleted <
      [StartEvent.filesOpened, StartEvent.initialCheckCompleted,
       StartEvent.lengthsEnsured, StartEvent.chunkTrackerConstructed,
       StartEvent.liveStateConstructed,
       StartEvent.backgroundTasksSpawned].indexOf
        StartEvent.chunkTrackerConstructed ∧
    [StartEvent.filesOpened, StartEvent.initialCheckCompleted,
     StartEvent.lengthsEnsured, StartEvent.chunkTrackerConstructed,
     StartEvent.liveStateConstructed,
     StartEvent.backgroundTasksSpawned].indexOf
        StartEvent.initialCheckCompleted <
      [StartEvent.filesOpened, StartEvent.initialCheckCompleted,
       StartEvent.lengthsEnsured, StartEvent.chunkTrackerConstructed,
       StartEvent.liveStateConstructed,
       StartEvent.backgroundTasksSpawned].indexOf
        StartEvent.liveStateConstructed ∧
    StartEvent.initialCheckCompleted ∈
      [StartEvent.filesOpened, StartEvent.initialCheckCompleted,
       StartEvent.lengthsEnsured, StartEvent.chunkTrackerConstructed,
       StartEvent.liveStateConstructed, StartEvent.backgroundTasksSpawned] ∧
    StartEvent.liveStateConstructed ∈
      [StartEvent.filesOpened, StartEvent.initialCheckCompleted,
       StartEvent.lengthsEnsured, StartEvent.chunkTrackerConstructed,
       StartEvent.liveStateConstructed, StartEvent.backgroundTasksSpawned] :=
  initial_check_precedes_state_construction
    ⟨false, none, [(4, 1)], 3, [], ⟨[true], [false], 0, 1⟩, []⟩
    [.filesOpened, .initialCheckCompleted, .lengthsEnsured,
     .chunkTrackerConstructed, .liveStateConstructed,
     .backgroundTasksSpawned]
    [(4, [])]
    ⟨[⟨4, [0], true, true⟩], [4], ⟨[false], [true], ⟨1, 3⟩⟩, ⟨1, 3⟩, 0, 1⟩
    rfl

end Rqbit
